import Mathlib

/-!
Verification of the cart/session state machine and catalogue-navigation
logic of the sweet-shop chat bot (`bot.py`), shallowly embedded in Lean.

Python dictionaries are modelled as association lists `List (String × α)`
with CPython semantics: lookup finds the first matching key, update keeps
the position of an existing key, and a new key is appended at the end
(insertion order is preserved, matching `dict` iteration order).
Python `int` is modelled as `Int`.
-/

/-- CPython `d.get(k)` / `d[k]`: first entry whose key equals `k`. -/
def dictGet {α : Type} : List (String × α) → String → Option α
  | [], _ => none
  | (k', v) :: rest, k => if k' = k then some v else dictGet rest k

/-- CPython `d[k] = v`: replace the value in place if the key is present,
otherwise append the new entry at the end. -/
def dictSet {α : Type} : List (String × α) → String → α → List (String × α)
  | [], k, v => [(k, v)]
  | (k', v') :: rest, k, v =>
    if k' = k then (k, v) :: rest else (k', v') :: dictSet rest k v

/-- A single item that can be purchased in the shop (`Sweet` dataclass). -/
structure Sweet where
  id : String
  name : String
  price_rub : Int
  description : String
deriving DecidableEq

/-- The static in-memory catalogue `SWEET_CATALOGUE`, in source order. -/
def SWEET_CATALOGUE : List (String × List Sweet) :=
  [("chocolate",
    [{ id := "milk_chocolate", name := "Молочный шоколад", price_rub := 220,
       description := "Классическая плитка молочного шоколада с легкой карамельной ноткой." },
     { id := "dark_truffle", name := "Трюфель 72%", price_rub := 280,
       description := "Темный шоколад с насыщенным вкусом какао и хрустящими какао-крупками." }]),
   ("caramel",
    [{ id := "salted_caramel", name := "Соленая карамель", price_rub := 150,
       description := "Нежная тянучка на сливках с легкой ноткой морской соли." },
     { id := "hazelnut_caramel", name := "Карамель с фундуком", price_rub := 190,
       description := "Мягкая карамель, украшенная дробленым фундуком." }]),
   ("cookies",
    [{ id := "choco_chip_cookie", name := "Печенье с шоколадной крошкой", price_rub := 120,
       description := "Домашнее печенье из сливочного теста, щедро посыпанное шоколадом." },
     { id := "red_velvet_cookie", name := "Печенье «Красный бархат»", price_rub := 130,
       description := "Мягкое печенье с нежным кремовым послевкусием." }])]

/-- `SWEET_CATALOGUE.get(category)` in the source. -/
def catalogueGet (category : String) : Option (List Sweet) :=
  dictGet SWEET_CATALOGUE category

/-- A Python value that may sit in the `user_data` session bag: either a
cart dictionary or some non-dict value (the case `_get_cart` defends
against). -/
inductive PyVal where
  | dict (d : List (String × Int))
  | nonDict
deriving DecidableEq

/-- `_get_cart(user_data)`: `setdefault("cart", {})`, then replace a
non-dict value with a fresh empty dict. Returns the cart together with the
updated `user_data`. -/
def _get_cart (user_data : List (String × PyVal)) :
    List (String × Int) × List (String × PyVal) :=
  match dictGet user_data "cart" with
  | none => ([], dictSet user_data "cart" (PyVal.dict []))
  | some (PyVal.dict d) => (d, user_data)
  | some PyVal.nonDict => ([], dictSet user_data "cart" (PyVal.dict []))

/-- `_format_currency(amount_rub)`: integer amount with the ruble suffix. -/
def _format_currency (amount_rub : Int) : String :=
  toString amount_rub ++ " ₽"

/-- `titles.get(category, category)` inside `_category_title`. -/
def _category_title (category : String) : String :=
  (dictGet [("chocolate", "Шоколад"), ("caramel", "Карамель"),
            ("cookies", "Печенье")] category).getD category

/-- Inner loop of `_find_sweet_by_id`: first sweet with matching id,
scanning the category lists in order. -/
def findSweetInLists : List (List Sweet) → String → Option Sweet
  | [], _ => none
  | sweets :: rest, sid =>
    match sweets.find? (fun sw => sw.id == sid) with
    | some sw => some sw
    | none => findSweetInLists rest sid

/-- `_find_sweet_by_id(sweet_id)`: scan all categories in order. -/
def _find_sweet_by_id (sweet_id : String) : Option Sweet :=
  findSweetInLists (SWEET_CATALOGUE.map Prod.snd) sweet_id

/-- A button grid: rows of (label, callback_data) pairs. -/
abbrev Keyboard := List (List (String × String))

/-- `_build_categories_keyboard()`. -/
def _build_categories_keyboard : Keyboard :=
  (SWEET_CATALOGUE.map (fun cat => [(_category_title cat.1, "cat:" ++ cat.1)]))
    ++ [[("🛒 Корзина", "cart:view")]]

/-- `_build_sweets_keyboard(category)`: `if not sweets` (missing key or
empty list) renders the single back button. -/
def _build_sweets_keyboard (category : String) : Keyboard :=
  match catalogueGet category with
  | some (sweet :: rest) =>
    ((sweet :: rest).map (fun sw =>
      [(sw.name ++ " — " ++ _format_currency sw.price_rub, "item:" ++ sw.id)]))
      ++ [[("⬅️ Назад", "menu")]]
  | _ => [[("⬅️ Назад", "menu")]]

/-- `_build_item_keyboard(sweet)`. -/
def _build_item_keyboard (sweet : Sweet) : Keyboard :=
  [[("Добавить в корзину", "add:" ++ sweet.id)],
   [("🛒 Открыть корзину", "cart:view"), ("⬅️ Назад", "menu")]]

/-- `_build_cart_keyboard(cart)`. -/
def _build_cart_keyboard (cart : List (String × Int)) : Keyboard :=
  (if cart = [] then []
   else [[("Очистить", "cart:clear"), ("Оформить заказ", "cart:checkout")]])
    ++ [[("⬅️ К товарам", "menu")]]

/-- One step of the loop in `_format_cart`: skip an unresolvable id,
otherwise append the entry line and accumulate the line total. -/
def cartLineStep (acc : List String × Int) (entry : String × Int) :
    List String × Int :=
  match _find_sweet_by_id entry.1 with
  | none => acc
  | some sweet =>
    (acc.1 ++ ["• " ++ sweet.name ++ " — " ++ toString entry.2 ++ " шт. × "
               ++ _format_currency sweet.price_rub ++ " = "
               ++ _format_currency (sweet.price_rub * entry.2)],
     acc.2 + sweet.price_rub * entry.2)

/-- The loop of `_format_cart`: lines so far (starting from the header)
and the running total. -/
def _format_cart_fold (cart : List (String × Int)) : List String × Int :=
  cart.foldl cartLineStep (["🛒 Ваша корзина:"], 0)

/-- `_format_cart(cart)`. -/
def _format_cart (cart : List (String × Int)) : String :=
  if cart = [] then
    "Ваша корзина пока пуста. Загляните в меню и добавьте что-нибудь вкусное!"
  else
    String.intercalate "\n" ((_format_cart_fold cart).1
      ++ ["", "Итого к оплате: " ++ _format_currency (_format_cart_fold cart).2,
          "Для завершения заказа нажмите «Оформить заказ» и наш менеджер свяжется с вами."])

/-- The cart-store add operation, line `cart[sweet_id] = cart.get(sweet_id, 0) + 1`
of `handle_callbacks`. -/
def cartAdd (cart : List (String × Int)) (sweet_id : String) :
    List (String × Int) :=
  dictSet cart sweet_id ((dictGet cart sweet_id).getD 0 + 1)

/-- The user intents distinguished by the prefix checks in `handle_callbacks`. -/
inductive CbAction where
  | menu
  | selectCategory (key : String)
  | viewItem (id : String)
  | addToCart (id : String)
  | cartView
  | cartClear
  | cartCheckout
  | unknown
deriving DecidableEq

/-- The chain of `startswith`/`split(":", 1)` checks of `handle_callbacks`,
on the character list of the callback data, in source order. -/
def parseCbData : List Char → CbAction
  | ['m', 'e', 'n', 'u'] => .menu
  | 'c' :: 'a' :: 't' :: ':' :: rest => .selectCategory (String.mk rest)
  | 'i' :: 't' :: 'e' :: 'm' :: ':' :: rest => .viewItem (String.mk rest)
  | 'a' :: 'd' :: 'd' :: ':' :: rest => .addToCart (String.mk rest)
  | 'c' :: 'a' :: 'r' :: 't' :: ':' :: rest =>
    if rest = "view".data then .cartView
    else if rest = "clear".data then .cartClear
    else if rest = "checkout".data then .cartCheckout
    else .unknown
  | _ => .unknown

/-- The observable effects of one call to `handle_callbacks`:
`edit_message_text` text and markup, `edit_message_reply_markup` markup,
an alerting `query.answer` text, a plain toast `query.answer` text, and the
session cart after the call. -/
structure CbResult where
  edit : Option (String × Keyboard)
  editMarkup : Option Keyboard
  alert : Option String
  toast : Option String
  cart : List (String × Int)
deriving DecidableEq

/-- Text of the item-detail screen (HTML body built in the `item:` branch). -/
def itemDescription (sweet : Sweet) : String :=
  "<b>" ++ sweet.name ++ "</b>\n" ++ "Цена: " ++ _format_currency sweet.price_rub
    ++ "\n\n" ++ sweet.description

/-- Thank-you text of the checkout branch. -/
def checkoutThanksText : String :=
  "Спасибо за заказ! 🎉\nНаш менеджер свяжется с вами в ближайшее время для уточнения деталей доставки и оплаты."

/-- The branch bodies of `handle_callbacks`, acting on the session cart. -/
def dispatchCallback (act : CbAction) (cart : List (String × Int)) : CbResult :=
  match act with
  | .menu =>
    ⟨some ("Выбирайте сладости:", _build_categories_keyboard), none, none, none, cart⟩
  | .selectCategory category =>
    match catalogueGet category with
    | some (_ :: _) =>
      ⟨some ("Категория: " ++ _category_title category, _build_sweets_keyboard category),
       none, none, none, cart⟩
    | _ => ⟨none, none, some ("Категория не найдена"), none, cart⟩
  | .viewItem sweet_id =>
    match _find_sweet_by_id sweet_id with
    | none => ⟨none, none, some ("Товар не найден"), none, cart⟩
    | some sweet =>
      ⟨some (itemDescription sweet, _build_item_keyboard sweet), none, none, none, cart⟩
  | .addToCart sweet_id =>
    match _find_sweet_by_id sweet_id with
    | none => ⟨none, none, some ("Товар не найден"), none, cart⟩
    | some sweet =>
      ⟨none, some (_build_item_keyboard sweet), none, some ("Добавлено в корзину"),
       cartAdd cart sweet_id⟩
  | .cartView =>
    ⟨some (_format_cart cart, _build_cart_keyboard cart), none, none, none, cart⟩
  | .cartClear =>
    ⟨some ("Корзина очищена. Чем еще можем порадовать?", _build_cart_keyboard []),
     none, none, none, []⟩
  | .cartCheckout =>
    if cart = [] then ⟨none, none, some ("Корзина пуста"), none, cart⟩
    else ⟨some (checkoutThanksText, _build_categories_keyboard), none, none, none, []⟩
  | .unknown => ⟨none, none, some ("Неизвестная команда"), none, cart⟩

/-- `handle_callbacks(update, context)` for callback data `data` and the
session cart obtained from `_get_cart`. -/
def handle_callbacks (data : String) (cart : List (String × Int)) : CbResult :=
  dispatchCallback (parseCbData data.data) cart

/-- The cart-store operations reachable from the handlers. -/
inductive CartOp where
  | add (sweet_id : String)
  | clear
deriving DecidableEq

/-- Apply one cart-store operation. -/
def applyCartOp (cart : List (String × Int)) : CartOp → List (String × Int)
  | .add sid => cartAdd cart sid
  | .clear => []

/-- Apply a sequence of cart-store operations to the empty cart. -/
def applyCartOps (ops : List CartOp) : List (String × Int) :=
  ops.foldl applyCartOp []

/-- The exact integer sum of price × quantity over the cart entries whose
id resolves in the catalogue; an unresolvable entry contributes zero. -/
def cartTotalSpec (cart : List (String × Int)) : Int :=
  (cart.map (fun e =>
    match _find_sweet_by_id e.1 with
    | none => 0
    | some sw => sw.price_rub * e.2)).sum

/-! Dictionary lemmas. -/

theorem dictGet_dictSet_self {α : Type} (d : List (String × α)) (k : String) (v : α) :
    dictGet (dictSet d k v) k = some v := by
  induction d with
  | nil => simp [dictGet, dictSet]
  | cons p rest ih =>
    obtain ⟨k', v'⟩ := p
    by_cases h : k' = k
    · simp [dictGet, dictSet, h]
    · simp [dictGet, dictSet, h, ih]

theorem dictGet_dictSet_ne {α : Type} (d : List (String × α)) (k k₂ : String) (v : α)
    (h : k₂ ≠ k) : dictGet (dictSet d k v) k₂ = dictGet d k₂ := by
  have hne : k ≠ k₂ := fun e => h e.symm
  induction d with
  | nil => simp [dictGet, dictSet, hne]
  | cons p rest ih =>
    obtain ⟨k', v'⟩ := p
    by_cases hk : k' = k
    · subst hk
      simp [dictGet, dictSet, hne]
    · simp [dictGet, dictSet, hk, ih]

theorem mem_dictSet {α : Type} {d : List (String × α)} {k : String} {v : α}
    {p : String × α} (h : p ∈ dictSet d k v) : p = (k, v) ∨ p ∈ d := by
  induction d with
  | nil => simpa [dictSet] using h
  | cons q rest ih =>
    obtain ⟨k', v'⟩ := q
    by_cases hk : k' = k
    · simp [dictSet, hk] at h
      rcases h with h | h
      · exact Or.inl h
      · exact Or.inr (List.mem_cons_of_mem _ h)
    · simp [dictSet, hk] at h
      rcases h with h | h
      · exact Or.inr (by simp [h])
      · rcases ih h with h' | h'
        · exact Or.inl h'
        · exact Or.inr (List.mem_cons_of_mem _ h')

theorem dictGet_mem {α : Type} {d : List (String × α)} {k : String} {v : α}
    (h : dictGet d k = some v) : (k, v) ∈ d := by
  induction d with
  | nil => simp [dictGet] at h
  | cons q rest ih =>
    obtain ⟨k', v'⟩ := q
    by_cases hk : k' = k
    · subst hk
      simp [dictGet] at h
      simp [h]
    · simp [dictGet, hk] at h
      exact List.mem_cons_of_mem _ (ih h)

/-! Cart-store lemmas. -/

theorem cartAdd_iterate_of_some (x : String) (n : Nat) :
    ∀ (cart : List (String × Int)) (m : Int), dictGet cart x = some m →
      dictGet ((fun c => cartAdd c x)^[n] cart) x = some (m + n) := by
  induction n with
  | zero => intro cart m h; simpa using h
  | succ n ih =>
    intro cart m h
    rw [Function.iterate_succ_apply]
    have h1 : dictGet (cartAdd cart x) x = some (m + 1) := by
      simp [cartAdd, dictGet_dictSet_self, h]
    rw [ih (cartAdd cart x) (m + 1) h1]
    congr 1
    push_cast
    ring

/-- C2: repeated `add` counts exactly: n adds of `x` onto a cart without `x`
store quantity n; one `add` increments by 1 (1 when absent); other entries
are untouched. -/
theorem cart_add_spec (cart : List (String × Int)) (x : String) (n : Nat) :
    (dictGet cart x = none → 0 < n →
      dictGet ((fun c => cartAdd c x)^[n] cart) x = some (n : Int)) ∧
    dictGet (cartAdd cart x) x = some ((dictGet cart x).getD 0 + 1) ∧
    (∀ y, y ≠ x → dictGet (cartAdd cart x) y = dictGet cart y) := by
  refine ⟨?_, ?_, ?_⟩
  · intro h hn
    obtain ⟨n', rfl⟩ := Nat.exists_eq_succ_of_ne_zero (Nat.pos_iff_ne_zero.mp hn)
    rw [Function.iterate_succ_apply]
    have h1 : dictGet (cartAdd cart x) x = some 1 := by
      simp [cartAdd, dictGet_dictSet_self, h]
    rw [cartAdd_iterate_of_some x n' (cartAdd cart x) 1 h1]
    congr 1
    push_cast
    ring
  · simp [cartAdd, dictGet_dictSet_self]
  · intro y hy
    simp [cartAdd, dictGet_dictSet_ne _ _ _ _ hy]

theorem cart_add_spec_witness :
    dictGet ([] : List (String × Int)) "a" = none ∧ 0 < 2 ∧
    dictGet ((fun c => cartAdd c "a")^[2] []) "a" = some ((2 : Nat) : Int) ∧
    ("b" : String) ≠ "a" ∧
    dictGet (cartAdd [] "a") "b" = dictGet ([] : List (String × Int)) "b" :=
  ⟨rfl, by decide, (cart_add_spec [] "a" 2).1 rfl (by decide), by decide,
   (cart_add_spec [] "a" 2).2.2 "b" (by decide)⟩

theorem cartAdd_pos (cart : List (String × Int)) (sid : String)
    (h : ∀ p ∈ cart, 0 < p.2) : ∀ p ∈ cartAdd cart sid, 0 < p.2 := by
  intro p hp
  rcases mem_dictSet hp with rfl | hmem
  · cases hd : dictGet cart sid with
    | none => simp [hd]
    | some m =>
      have hm := h _ (dictGet_mem hd)
      simp [hd]
      omega
  · exact h p hmem

theorem applyCartOps_pos_aux :
    ∀ (ops : List CartOp) (cart : List (String × Int)),
      (∀ p ∈ cart, 0 < p.2) → ∀ p ∈ ops.foldl applyCartOp cart, 0 < p.2 := by
  intro ops
  induction ops with
  | nil => intro cart h; simpa using h
  | cons op rest ih =>
    intro cart h
    rw [List.foldl_cons]
    apply ih
    cases op with
    | add sid => exact cartAdd_pos cart sid h
    | clear => intro p hp; simp [applyCartOp] at hp

/-- C6: starting from the empty cart, any sequence of cart-store
operations (`add`, `clear`) leaves only strictly positive quantities. -/
theorem cart_quantities_positive (ops : List CartOp) :
    ∀ p ∈ applyCartOps ops, 0 < p.2 :=
  applyCartOps_pos_aux ops [] (by intro p hp; simp at hp)

theorem cart_quantities_positive_witness :
    ("a", (1 : Int)) ∈ applyCartOps [CartOp.add "a"] ∧
    0 < (("a", (1 : Int)) : String × Int).2 :=
  ⟨by decide, cart_quantities_positive [CartOp.add "a"] ("a", 1) (by decide)⟩

/-- C7: a session bag with no "cart" slot (no prior activity) gets an
empty cart from `_get_cart`, not an error. -/
theorem get_cart_fresh_session (user_data : List (String × PyVal))
    (h : dictGet user_data "cart" = none) :
    (_get_cart user_data).1 = [] := by
  simp [_get_cart, h]

theorem get_cart_fresh_session_witness :
    dictGet ([] : List (String × PyVal)) "cart" = none ∧ (_get_cart []).1 = [] :=
  ⟨rfl, get_cart_fresh_session [] rfl⟩

/-- C10: `_get_cart` is total over malformed session state: the result is
always a dict that the updated bag stores under "cart"; a stored dict is
returned as is; a non-dict value is replaced by a fresh empty cart. -/
theorem get_cart_total_on_malformed (user_data : List (String × PyVal)) :
    dictGet (_get_cart user_data).2 "cart" = some (PyVal.dict (_get_cart user_data).1) ∧
    (∀ d, dictGet user_data "cart" = some (PyVal.dict d) → (_get_cart user_data).1 = d) ∧
    (dictGet user_data "cart" = some PyVal.nonDict → (_get_cart user_data).1 = []) := by
  refine ⟨?_, ?_, ?_⟩
  · cases h : dictGet user_data "cart" with
    | none => simp [_get_cart, h, dictGet_dictSet_self]
    | some v =>
      cases v with
      | dict d => simp [_get_cart, h]
      | nonDict => simp [_get_cart, h, dictGet_dictSet_self]
  · intro d h
    simp [_get_cart, h]
  · intro h
    simp [_get_cart, h]

theorem get_cart_total_on_malformed_witness :
    dictGet [("cart", PyVal.nonDict)] "cart" = some PyVal.nonDict ∧
    (_get_cart [("cart", PyVal.nonDict)]).1 = [] :=
  ⟨rfl, (get_cart_total_on_malformed [("cart", PyVal.nonDict)]).2.2 rfl⟩

/-! Cart rendering lemmas. -/

theorem cartTotalSpec_cons (e : String × Int) (rest : List (String × Int)) :
    cartTotalSpec (e :: rest) =
      (match _find_sweet_by_id e.1 with
       | none => 0
       | some sw => sw.price_rub * e.2) + cartTotalSpec rest := by
  simp [cartTotalSpec]

theorem format_cart_fold_snd :
    ∀ (cart : List (String × Int)) (acc : List String × Int),
      (cart.foldl cartLineStep acc).2 = acc.2 + cartTotalSpec cart := by
  intro cart
  induction cart with
  | nil => intro acc; simp [cartTotalSpec]
  | cons e rest ih =>
    intro acc
    rw [List.foldl_cons, cartTotalSpec_cons, ih]
    cases h : _find_sweet_by_id e.1 with
    | none => simp only [cartLineStep, h]; ring
    | some sw => simp only [cartLineStep, h]; ring

/-- C1: for a non-empty cart, the footer line of the rendered cart shows
exactly the integer sum of price × quantity over the resolvable entries;
unresolvable entries are skipped and contribute zero. -/
theorem cart_footer_total (cart : List (String × Int)) (h : cart ≠ []) :
    (_format_cart_fold cart).2 = cartTotalSpec cart ∧
    _format_cart cart = String.intercalate "\n" ((_format_cart_fold cart).1
      ++ ["", "Итого к оплате: " ++ _format_currency (cartTotalSpec cart),
          "Для завершения заказа нажмите «Оформить заказ» и наш менеджер свяжется с вами."]) := by
  have ht : (_format_cart_fold cart).2 = cartTotalSpec cart := by
    have := format_cart_fold_snd cart (["🛒 Ваша корзина:"], 0)
    simpa [_format_cart_fold] using this
  refine ⟨ht, ?_⟩
  simp [_format_cart, h, ht]

theorem cart_footer_total_witness :
    ([(("milk_chocolate" : String), (2 : Int)), ("ghost_id", 5)] ≠ []) ∧
    ((_format_cart_fold [("milk_chocolate", (2 : Int)), ("ghost_id", 5)]).2
        = cartTotalSpec [("milk_chocolate", (2 : Int)), ("ghost_id", 5)] ∧
     _format_cart [("milk_chocolate", (2 : Int)), ("ghost_id", 5)] =
       String.intercalate "\n"
         ((_format_cart_fold [("milk_chocolate", (2 : Int)), ("ghost_id", 5)]).1
           ++ ["", "Итого к оплате: "
                 ++ _format_currency (cartTotalSpec [("milk_chocolate", (2 : Int)), ("ghost_id", 5)]),
               "Для завершения заказа нажмите «Оформить заказ» и наш менеджер свяжется с вами."])) :=
  ⟨by decide, cart_footer_total _ (by decide)⟩

/-- C3: checkout on a non-empty cart renders the confirmation screen and
empties the cart; checkout on an empty cart only raises the transient
"cart empty" alert, renders nothing and changes nothing. -/
theorem checkout_spec (cart : List (String × Int)) :
    (cart ≠ [] → dispatchCallback CbAction.cartCheckout cart =
      ⟨some (checkoutThanksText, _build_categories_keyboard), none, none, none, []⟩) ∧
    (cart = [] → dispatchCallback CbAction.cartCheckout cart =
      ⟨none, none, some ("Корзина пуста"), none, cart⟩) := by
  constructor
  · intro h
    simp [dispatchCallback, h]
  · intro h
    simp [dispatchCallback, h]

theorem checkout_spec_witness :
    ([(("milk_chocolate" : String), (1 : Int))] ≠ [] ∧
      dispatchCallback CbAction.cartCheckout [("milk_chocolate", (1 : Int))] =
        ⟨some (checkoutThanksText, _build_categories_keyboard), none, none, none, []⟩) ∧
    (([] : List (String × Int)) = [] ∧
      dispatchCallback CbAction.cartCheckout [] =
        ⟨none, none, some ("Корзина пуста"), none, []⟩) :=
  ⟨⟨by decide, (checkout_spec _).1 (by decide)⟩, ⟨rfl, (checkout_spec []).2 rfl⟩⟩

/-- C4 counterexample: dispatching select_category with an unknown key
renders no screen at all (`edit_message_text` is never called); the user
only gets the transient "category not found" alert, contradicting the
claimed rendered empty-mode ItemList. -/
theorem select_category_unknown_only_alert :
    (dispatchCallback (CbAction.selectCategory "marzipan") []).edit = none ∧
    (dispatchCallback (CbAction.selectCategory "marzipan") []).alert =
      some ("Категория не найдена") := by
  decide

/-- C4 (amended): select_category on a key resolving to a non-empty
category renders ItemList(key); on an unknown or empty key the router
renders nothing and surfaces the transient "category not found" alert,
while the renderer itself would produce the single back-button keyboard
for such a key (but is never invoked on this path). -/
theorem select_category_spec (key : String) (cart : List (String × Int)) :
    ((catalogueGet key).getD [] ≠ [] →
      dispatchCallback (CbAction.selectCategory key) cart =
        ⟨some ("Категория: " ++ _category_title key, _build_sweets_keyboard key),
         none, none, none, cart⟩) ∧
    ((catalogueGet key).getD [] = [] →
      dispatchCallback (CbAction.selectCategory key) cart =
        ⟨none, none, some ("Категория не найдена"), none, cart⟩ ∧
      _build_sweets_keyboard key = [[("⬅️ Назад", "menu")]]) := by
  constructor
  · intro h
    cases hc : catalogueGet key with
    | none => simp [hc] at h
    | some l =>
      cases l with
      | nil => simp [hc] at h
      | cons s rest => simp [dispatchCallback, hc]
  · intro h
    cases hc : catalogueGet key with
    | none =>
      exact ⟨by simp [dispatchCallback, hc], by simp [_build_sweets_keyboard, hc]⟩
    | some l =>
      cases l with
      | nil =>
        exact ⟨by simp [dispatchCallback, hc], by simp [_build_sweets_keyboard, hc]⟩
      | cons s rest => simp [hc] at h

theorem select_category_spec_witness :
    ((catalogueGet "chocolate").getD [] ≠ [] ∧
      dispatchCallback (CbAction.selectCategory "chocolate") [] =
        ⟨some ("Категория: " ++ _category_title "chocolate",
               _build_sweets_keyboard "chocolate"), none, none, none, []⟩) ∧
    ((catalogueGet "pastila").getD [] = [] ∧
      dispatchCallback (CbAction.selectCategory "pastila") [] =
        ⟨none, none, some ("Категория не найдена"), none, []⟩) :=
  ⟨⟨by decide, (select_category_spec "chocolate" []).1 (by decide)⟩,
   ⟨by decide, ((select_category_spec "pastila" []).2 (by decide)).1⟩⟩

/-- C5 counterexample: a cart entry with a resolvable id and quantity -1
is not dropped by the renderer: its line is rendered and the footer total
becomes -220, contradicting the claimed defensive normalization. -/
theorem negative_quantity_not_dropped :
    _format_cart_fold [("milk_chocolate", (-1 : Int))] =
      (["🛒 Ваша корзина:", "• Молочный шоколад — -1 шт. × 220 ₽ = -220 ₽"],
       -220) := by
  decide

/-- C5 (amended): the renderer does not normalize non-positive quantities:
an entry whose id resolves is always rendered as a line and contributes
price × quantity to the total, even when the quantity is zero or negative;
only entries with unresolvable ids are dropped. -/
theorem nonpositive_entry_rendered (sid : String) (q : Int) (sw : Sweet)
    (h : _find_sweet_by_id sid = some sw) (_hq : q ≤ 0) :
    _format_cart_fold [(sid, q)] =
      (["🛒 Ваша корзина:",
        "• " ++ sw.name ++ " — " ++ toString q ++ " шт. × "
          ++ _format_currency sw.price_rub ++ " = "
          ++ _format_currency (sw.price_rub * q)],
       sw.price_rub * q) := by
  simp [_format_cart_fold, cartLineStep, h]

theorem nonpositive_entry_rendered_witness :
    _find_sweet_by_id "dark_truffle" =
      some { id := "dark_truffle", name := "Трюфель 72%", price_rub := 280,
             description := "Темный шоколад с насыщенным вкусом какао и хрустящими какао-крупками." } ∧
    ((-2 : Int) ≤ 0) ∧
    _format_cart_fold [("dark_truffle", (-2 : Int))] =
      (["🛒 Ваша корзина:", "• Трюфель 72% — -2 шт. × 280 ₽ = -560 ₽"], -560) :=
  ⟨by decide, by decide,
   nonpositive_entry_rendered "dark_truffle" (-2)
     { id := "dark_truffle", name := "Трюфель 72%", price_rub := 280,
       description := "Темный шоколад с насыщенным вкусом какао и хрустящими какао-крупками." }
     (by decide) (by decide)⟩

/-- C8: select_category("chocolate") renders the item buttons in catalogue
insertion order, the 220-ruble sweet before the 280-ruble one, each
labelled name — price with the plain ruble suffix. -/
theorem chocolate_category_listing (cart : List (String × Int)) :
    handle_callbacks "cat:chocolate" cart =
      ⟨some ("Категория: Шоколад",
        [[("Молочный шоколад — 220 ₽", "item:milk_chocolate")],
         [("Трюфель 72% — 280 ₽", "item:dark_truffle")],
         [("⬅️ Назад", "menu")]]), none, none, none, cart⟩ ∧
    _format_currency 220 = "220 ₽" := by
  exact ⟨rfl, rfl⟩

/-- C9: add_to_cart with an id that does not resolve surfaces only the
"item not found" alert and leaves the cart exactly as it was. -/
theorem add_unknown_item_no_mutation (sid : String) (cart : List (String × Int))
    (h : _find_sweet_by_id sid = none) :
    dispatchCallback (CbAction.addToCart sid) cart =
      ⟨none, none, some ("Товар не найден"), none, cart⟩ := by
  simp [dispatchCallback, h]

theorem add_unknown_item_no_mutation_witness :
    _find_sweet_by_id "nougat" = none ∧
    dispatchCallback (CbAction.addToCart "nougat") [("milk_chocolate", (1 : Int))] =
      ⟨none, none, some ("Товар не найден"), none, [("milk_chocolate", (1 : Int))]⟩ :=
  ⟨by decide, add_unknown_item_no_mutation "nougat" _ (by decide)⟩
